import Mathlib

/-!
Shallow embedding of the weather-notifier core (measures, day-phase
classifier, flyability predicate, period aggregator, report preparation).
Floating-point values (`f32`) are modelled as rationals; `f32::round`
(round half away from zero) is modelled by `roundRat`.  Timestamps
(`DateTime<FixedOffset>`) are modelled as integer seconds; `Duration`
arithmetic becomes integer arithmetic in seconds.  Calendar dates are
modelled as integers (day numbers in the forecast's fixed offset).
-/

namespace Weather

/-- Rounding to the nearest integer, halves away from zero, as `f32::round`
does in Rust; applied to the canonical value multiplied by 1000 it realises
the "rounded to the nearest 1/1000th" comparison of the measures module. -/
def roundRat (q : ℚ) : ℤ :=
  if 0 ≤ q then ⌊q + 1/2⌋ else -⌊-q + 1/2⌋

/-- Temperature with its originating unit (src/measures.rs, enum Temperature). -/
inductive Temperature where
  | C (degrees : ℚ)
  | F (degrees : ℚ)
deriving DecidableEq

/-- Accessor `Temperature::celsius` (src/measures.rs lines 12-17), translated
verbatim: note the `F` arm applies `degrees * 1.8 + 32`. -/
def Temperature.celsius : Temperature → ℚ
  | .C degrees => degrees
  | .F degrees => degrees * 1.8 + 32

/-- Accessor `Temperature::fahrenheit` (src/measures.rs lines 19-24), translated
verbatim: note the `C` arm applies `(degrees - 32) / 1.8`. -/
def Temperature.fahrenheit : Temperature → ℚ
  | .C degrees => (degrees - 32) / 1.8
  | .F degrees => degrees

/-- `PartialEq for Temperature` (src/measures.rs lines 27-31). -/
def Temperature.eq (a b : Temperature) : Bool :=
  decide (roundRat (a.celsius * 1000) = roundRat (b.celsius * 1000))

/-- `PartialOrd for Temperature` (src/measures.rs lines 33-43). -/
def Temperature.partial_cmp (a b : Temperature) : Option Ordering :=
  if a.eq b then some Ordering.eq
  else if a.celsius > b.celsius then some Ordering.gt
  else some Ordering.lt

/-- Rust `a > b` on a `PartialOrd` type: `partial_cmp` returned `Greater`. -/
def Temperature.gtb (a b : Temperature) : Bool :=
  decide (a.partial_cmp b = some Ordering.gt)

/-- Rust `a < b` on a `PartialOrd` type: `partial_cmp` returned `Less`. -/
def Temperature.ltb (a b : Temperature) : Bool :=
  decide (a.partial_cmp b = some Ordering.lt)

/-- Wind speed with its originating unit (src/measures.rs, enum WindSpeed). -/
inductive WindSpeed where
  | MPH (v : ℚ)
  | KMPH (v : ℚ)
  | MPS (v : ℚ)
deriving DecidableEq

def MPS_TO_KMPH : ℚ := 3.6
def MPS_TO_MPH : ℚ := 2.236936
def MPH_TO_KMPH : ℚ := 1.609344

/-- Accessor `WindSpeed::meters_per_second` (src/measures.rs lines 58-64). -/
def WindSpeed.meters_per_second : WindSpeed → ℚ
  | .MPH mph => mph / MPS_TO_MPH
  | .KMPH kmph => kmph / MPS_TO_KMPH
  | .MPS mps => mps

/-- Accessor `WindSpeed::miles_per_hour` (src/measures.rs lines 66-72). -/
def WindSpeed.miles_per_hour : WindSpeed → ℚ
  | .MPH mph => mph
  | .KMPH kmph => kmph / MPH_TO_KMPH
  | .MPS mps => mps * MPS_TO_MPH

/-- Accessor `WindSpeed::kilometers_per_second` (src/measures.rs lines 74-80);
despite the name it converts to km/h. -/
def WindSpeed.kilometers_per_second : WindSpeed → ℚ
  | .MPH mph => mph * MPH_TO_KMPH
  | .KMPH kmph => kmph
  | .MPS mps => mps * MPS_TO_KMPH

/-- `PartialEq for WindSpeed` (src/measures.rs lines 83-87). -/
def WindSpeed.eq (a b : WindSpeed) : Bool :=
  decide (roundRat (a.meters_per_second * 1000) = roundRat (b.meters_per_second * 1000))

/-- `PartialOrd for WindSpeed` (src/measures.rs lines 89-99). -/
def WindSpeed.partial_cmp (a b : WindSpeed) : Option Ordering :=
  if a.eq b then some Ordering.eq
  else if a.meters_per_second > b.meters_per_second then some Ordering.gt
  else some Ordering.lt

/-- Rust `a > b` for `WindSpeed`. -/
def WindSpeed.gtb (a b : WindSpeed) : Bool :=
  decide (a.partial_cmp b = some Ordering.gt)

/-- Rust `a < b` for `WindSpeed`. -/
def WindSpeed.ltb (a b : WindSpeed) : Bool :=
  decide (a.partial_cmp b = some Ordering.lt)

/-- Day-phase of an hour (src/forecast_client.rs, enum TimeOfDay). -/
inductive TimeOfDay where
  | NIGHT
  | TWILIGHT
  | DAY
deriving DecidableEq

/-- Function `get_time_of_day` (src/forecast_client.rs lines 136-162), translated
verbatim with timestamps in integer seconds; `Duration::hours(1)` is 3600 s and
`Duration::minutes(m)` is `60 * m` s.  Note the second-to-last guard compares
`sunset` (not `sunrise`) with `date_time + 45min`, as the source does. -/
def get_time_of_day (date_time sunrise sunset : ℤ) : TimeOfDay :=
  let end_hour := date_time + 3600
  if sunset ≥ end_hour ∧ sunrise < date_time then .DAY
  else if sunrise ≥ end_hour ∨ sunset < date_time then .NIGHT
  else if sunset < end_hour then
    if sunset < date_time + 14 * 60 then .NIGHT
    else if sunset < date_time + 45 * 60 then .TWILIGHT
    else .DAY
  else if sunrise < date_time + 14 * 60 then .DAY
  else if sunset < date_time + 45 * 60 then .TWILIGHT
  else .NIGHT

/-- One hour of forecast data (src/forecast_client.rs, struct HourWeatherForecast);
the timestamp is integer seconds in the forecast's fixed offset. -/
structure HourWeatherForecast where
  time : ℤ
  time_of_day : TimeOfDay
  temperature : Temperature
  feels_like : Temperature
  wind_speed : WindSpeed
  wind_deg : ℤ
  pop : ℚ
deriving DecidableEq

/-- One day of forecast data (src/forecast_client.rs, struct DayWeatherForecast);
the calendar date is modelled as an integer day number in the fixed offset. -/
structure DayWeatherForecast where
  date : ℤ
  sunrise : ℤ
  sunset : ℤ
  hourly : List HourWeatherForecast
deriving DecidableEq

/-- Site configuration (src/config.rs, struct FlyingSite). -/
structure FlyingSite where
  name : String
  latitude : ℚ
  longitude : ℚ
  min_flyable_wind : WindSpeed
  max_flyable_wind : WindSpeed
  min_flyable_wind_degree : ℤ
  max_flyable_wind_degree : ℤ
deriving DecidableEq

/-- Predicate `FlyingSite::is_flyable` (src/main.rs lines 17-24), translated
verbatim; the wind-speed comparisons go through the `PartialOrd` instance of
`WindSpeed` (`gtb`). -/
def FlyingSite.is_flyable (site : FlyingSite) (hour : HourWeatherForecast) : Bool :=
  !(decide (hour.pop > 0.3)
    || decide (hour.time_of_day ≠ TimeOfDay.DAY)
    || decide (site.min_flyable_wind_degree > hour.wind_deg)
    || decide (hour.wind_deg > site.max_flyable_wind_degree)
    || site.min_flyable_wind.gtb hour.wind_speed
    || hour.wind_speed.gtb site.max_flyable_wind)

/-- One maximal run of flyable hours (src/main.rs, struct SiteFlyablePeriod). -/
structure SiteFlyablePeriod where
  start : ℤ
  duration_hours : ℤ
  wind_min : WindSpeed
  wind_max : WindSpeed
  wind_degree_min : ℤ
  wind_degree_max : ℤ
  temp_min : Temperature
  temp_max : Temperature
deriving DecidableEq

/-- Constructor `SiteFlyablePeriod::from_hour` (src/main.rs lines 40-51). -/
def SiteFlyablePeriod.from_hour (hour : HourWeatherForecast) : SiteFlyablePeriod where
  start := hour.time
  duration_hours := 1
  wind_min := hour.wind_speed
  wind_max := hour.wind_speed
  wind_degree_min := hour.wind_deg
  wind_degree_max := hour.wind_deg
  temp_min := hour.temperature
  temp_max := hour.temperature

/-- Test `SiteFlyablePeriod::is_next_hour` (src/main.rs lines 53-55):
`self.start + Duration::hours(self.duration_hours) == hour.time`. -/
def SiteFlyablePeriod.is_next_hour (p : SiteFlyablePeriod) (hour : HourWeatherForecast) : Bool :=
  decide (p.start + 3600 * p.duration_hours = hour.time)

/-- Mutator `SiteFlyablePeriod::add_hour` (src/main.rs lines 57-77), as a pure
update; the min/max updates go through the `PartialOrd` instances (`gtb`/`ltb`). -/
def SiteFlyablePeriod.add_hour (p : SiteFlyablePeriod) (hour : HourWeatherForecast) :
    SiteFlyablePeriod where
  start := p.start
  duration_hours := p.duration_hours + 1
  wind_min := if p.wind_min.gtb hour.wind_speed then hour.wind_speed else p.wind_min
  wind_max := if p.wind_max.ltb hour.wind_speed then hour.wind_speed else p.wind_max
  wind_degree_min := if p.wind_degree_min > hour.wind_deg then hour.wind_deg else p.wind_degree_min
  wind_degree_max := if p.wind_degree_max < hour.wind_deg then hour.wind_deg else p.wind_degree_max
  temp_min := if p.temp_min.gtb hour.temperature then hour.temperature else p.temp_min
  temp_max := if p.temp_max.ltb hour.temperature then hour.temperature else p.temp_max

/-- Aggregation loop of `prepare_report_for_site` (src/main.rs lines 133-143):
`current` is the open period, the list holds the remaining flyable hours; the
final in-progress period is always appended. -/
def aggAux (current : SiteFlyablePeriod) : List HourWeatherForecast → List SiteFlyablePeriod
  | [] => [current]
  | h :: t =>
    if current.is_next_hour h then aggAux (current.add_hour h) t
    else current :: aggAux (SiteFlyablePeriod.from_hour h) t

/-- Report for one site (src/main.rs, struct SiteFlyAbilityReport). -/
structure SiteFlyAbilityReport where
  site : FlyingSite
  periods : List SiteFlyablePeriod
deriving DecidableEq

/-- Function `prepare_report_for_site` (src/main.rs lines 110-145).  The value
`tomorrow` abstracts `(Utc::now().with_timezone(&tz) + Duration::days(1)).date()`,
the only impure input of the source function; everything else is verbatim:
the guard on an empty forecast list, the search for tomorrow's forecast, the
flyability filter, the emptiness guard, and the aggregation loop. -/
def prepare_report_for_site (forecasts : List DayWeatherForecast) (tomorrow : ℤ)
    (site : FlyingSite) : Option SiteFlyAbilityReport :=
  if forecasts = [] then none
  else
    match forecasts.find? (fun f => f.date == tomorrow) with
    | none => none
    | some forecast =>
      match forecast.hourly.filter (fun h => site.is_flyable h) with
      | [] => none
      | h :: rest =>
        some { site := site, periods := aggAux (SiteFlyablePeriod.from_hour h) rest }

/-- Concrete hour used in evaluations: a DAY hour with pop 0.1, at time `t`
seconds, wind `w` m/s, direction `deg` degrees, temperature `temp` °C. -/
def exHour (t : ℤ) (w : ℚ) (deg : ℤ) (temp : ℚ) : HourWeatherForecast where
  time := t
  time_of_day := .DAY
  temperature := .C temp
  feels_like := .C temp
  wind_speed := .MPS w
  wind_deg := deg
  pop := 1/10

/-- Concrete site with thresholds wind [2,8] m/s and direction [180,270]°,
matching the scenario of the spec's testable properties. -/
def exSite : FlyingSite where
  name := "ex"
  latitude := 0
  longitude := 0
  min_flyable_wind := .MPS 2
  max_flyable_wind := .MPS 8
  min_flyable_wind_degree := 180
  max_flyable_wind_degree := 270

/-- Concrete one-day forecast list (day number 7) with a single flyable hour. -/
def exForecasts : List DayWeatherForecast :=
  [{ date := 7, sunrise := 6 * 3600, sunset := 20 * 3600,
     hourly := [exHour (8 * 3600) 5 200 10] }]

/-- Report produced by `prepare_report_for_site` on `exForecasts` for day 7. -/
def exReport : SiteFlyAbilityReport where
  site := exSite
  periods := [SiteFlyablePeriod.from_hour (exHour (8 * 3600) 5 200 10)]

end Weather

namespace Weather

/-- Monotonicity of the half-away-from-zero rounding. -/
theorem roundRat_le_roundRat {a b : ℚ} (h : a ≤ b) : roundRat a ≤ roundRat b := by
  unfold roundRat
  split_ifs with ha hb hb
  · exact Int.floor_mono (by linarith)
  · linarith
  · have h1 : (0 : ℤ) ≤ ⌊b + 1/2⌋ := Int.le_floor.mpr (by push_cast; linarith)
    have h2 : (0 : ℤ) ≤ ⌊-a + 1/2⌋ := Int.le_floor.mpr (by push_cast; linarith)
    omega
  · have h1 : ⌊-b + 1/2⌋ ≤ ⌊-a + 1/2⌋ := Int.floor_mono (by linarith)
    omega

/-- Strict rounded comparison holds exactly when the rounded values differ and
the raw values compare strictly, matching the source's `partial_cmp` shape. -/
theorem roundRat_lt_iff {x y : ℚ} :
    roundRat x < roundRat y ↔ (roundRat x ≠ roundRat y ∧ x < y) := by
  constructor
  · intro h
    refine ⟨ne_of_lt h, ?_⟩
    by_contra hxy
    push_neg at hxy
    exact absurd (roundRat_le_roundRat hxy) (not_le.mpr h)
  · rintro ⟨hne, hlt⟩
    exact lt_of_le_of_ne (roundRat_le_roundRat hlt.le) hne

theorem Temperature.temp_eq_iff (a b : Temperature) :
    a.eq b = true ↔ roundRat (a.celsius * 1000) = roundRat (b.celsius * 1000) := by
  simp [Temperature.eq]

theorem Temperature.temp_cmp_eq_iff (a b : Temperature) :
    a.partial_cmp b = some Ordering.eq ↔
      roundRat (a.celsius * 1000) = roundRat (b.celsius * 1000) := by
  unfold Temperature.partial_cmp
  split_ifs with h1 h2
  · simpa using (Temperature.temp_eq_iff a b).mp h1
  · have := (Temperature.temp_eq_iff a b).not.mp (by simpa using h1)
    simpa using this
  · have := (Temperature.temp_eq_iff a b).not.mp (by simpa using h1)
    simpa using this

theorem Temperature.temp_cmp_gt_iff (a b : Temperature) :
    a.partial_cmp b = some Ordering.gt ↔
      roundRat (b.celsius * 1000) < roundRat (a.celsius * 1000) := by
  unfold Temperature.partial_cmp
  split_ifs with h1 h2
  · have h1' := (Temperature.temp_eq_iff a b).mp h1
    simp [h1']
  · have h1' := (Temperature.temp_eq_iff a b).not.mp (by simpa using h1)
    simp only [true_iff, show (some Ordering.gt = some Ordering.gt) = True from by simp]
    exact roundRat_lt_iff.mpr ⟨fun e => h1' e.symm, by linarith⟩
  · have h2' : a.celsius ≤ b.celsius := not_lt.mp h2
    constructor
    · intro h; exact absurd h (by simp)
    · intro h
      have := (roundRat_lt_iff.mp h).2
      linarith

theorem Temperature.temp_cmp_lt_iff (a b : Temperature) :
    a.partial_cmp b = some Ordering.lt ↔
      roundRat (a.celsius * 1000) < roundRat (b.celsius * 1000) := by
  unfold Temperature.partial_cmp
  split_ifs with h1 h2
  · have h1' := (Temperature.temp_eq_iff a b).mp h1
    simp [h1']
  · have h1' := (Temperature.temp_eq_iff a b).not.mp (by simpa using h1)
    constructor
    · intro h; exact absurd h (by simp)
    · intro h
      have := (roundRat_lt_iff.mp h).2
      linarith
  · have h1' := (Temperature.temp_eq_iff a b).not.mp (by simpa using h1)
    have h2' : a.celsius ≤ b.celsius := not_lt.mp h2
    simp only [show (some Ordering.lt = some Ordering.lt) = True from by simp, true_iff]
    exact roundRat_lt_iff.mpr ⟨h1', lt_of_le_of_ne (by linarith) (by
      intro e
      exact h1' (by rw [e]))⟩

theorem Temperature.temp_gtb_iff (a b : Temperature) :
    a.gtb b = true ↔ roundRat (b.celsius * 1000) < roundRat (a.celsius * 1000) := by
  simp [Temperature.gtb, Temperature.temp_cmp_gt_iff]

theorem Temperature.temp_ltb_iff (a b : Temperature) :
    a.ltb b = true ↔ roundRat (a.celsius * 1000) < roundRat (b.celsius * 1000) := by
  simp [Temperature.ltb, Temperature.temp_cmp_lt_iff]

theorem WindSpeed.wind_eq_iff (a b : WindSpeed) :
    a.eq b = true ↔
      roundRat (a.meters_per_second * 1000) = roundRat (b.meters_per_second * 1000) := by
  simp [WindSpeed.eq]

theorem WindSpeed.wind_cmp_eq_iff (a b : WindSpeed) :
    a.partial_cmp b = some Ordering.eq ↔
      roundRat (a.meters_per_second * 1000) = roundRat (b.meters_per_second * 1000) := by
  unfold WindSpeed.partial_cmp
  split_ifs with h1 h2
  · simpa using (WindSpeed.wind_eq_iff a b).mp h1
  · have := (WindSpeed.wind_eq_iff a b).not.mp (by simpa using h1)
    simpa using this
  · have := (WindSpeed.wind_eq_iff a b).not.mp (by simpa using h1)
    simpa using this

theorem WindSpeed.wind_cmp_gt_iff (a b : WindSpeed) :
    a.partial_cmp b = some Ordering.gt ↔
      roundRat (b.meters_per_second * 1000) < roundRat (a.meters_per_second * 1000) := by
  unfold WindSpeed.partial_cmp
  split_ifs with h1 h2
  · have h1' := (WindSpeed.wind_eq_iff a b).mp h1
    simp [h1']
  · have h1' := (WindSpeed.wind_eq_iff a b).not.mp (by simpa using h1)
    simp only [show (some Ordering.gt = some Ordering.gt) = True from by simp, true_iff]
    exact roundRat_lt_iff.mpr ⟨fun e => h1' e.symm, by linarith⟩
  · have h2' : a.meters_per_second ≤ b.meters_per_second := not_lt.mp h2
    constructor
    · intro h; exact absurd h (by simp)
    · intro h
      have := (roundRat_lt_iff.mp h).2
      linarith

theorem WindSpeed.wind_cmp_lt_iff (a b : WindSpeed) :
    a.partial_cmp b = some Ordering.lt ↔
      roundRat (a.meters_per_second * 1000) < roundRat (b.meters_per_second * 1000) := by
  unfold WindSpeed.partial_cmp
  split_ifs with h1 h2
  · have h1' := (WindSpeed.wind_eq_iff a b).mp h1
    simp [h1']
  · have h1' := (WindSpeed.wind_eq_iff a b).not.mp (by simpa using h1)
    constructor
    · intro h; exact absurd h (by simp)
    · intro h
      have := (roundRat_lt_iff.mp h).2
      linarith
  · have h1' := (WindSpeed.wind_eq_iff a b).not.mp (by simpa using h1)
    have h2' : a.meters_per_second ≤ b.meters_per_second := not_lt.mp h2
    simp only [show (some Ordering.lt = some Ordering.lt) = True from by simp, true_iff]
    exact roundRat_lt_iff.mpr ⟨h1', lt_of_le_of_ne (by linarith) (by
      intro e
      exact h1' (by rw [e]))⟩

theorem WindSpeed.wind_gtb_iff (a b : WindSpeed) :
    a.gtb b = true ↔
      roundRat (b.meters_per_second * 1000) < roundRat (a.meters_per_second * 1000) := by
  simp [WindSpeed.gtb, WindSpeed.wind_cmp_gt_iff]

theorem WindSpeed.wind_ltb_iff (a b : WindSpeed) :
    a.ltb b = true ↔
      roundRat (a.meters_per_second * 1000) < roundRat (b.meters_per_second * 1000) := by
  simp [WindSpeed.ltb, WindSpeed.wind_cmp_lt_iff]

theorem WindSpeed.wind_gtb_eq (a b : WindSpeed) :
    a.gtb b = decide (roundRat (b.meters_per_second * 1000)
      < roundRat (a.meters_per_second * 1000)) := by
  by_cases hc : roundRat (b.meters_per_second * 1000) < roundRat (a.meters_per_second * 1000)
  · simp [hc, (WindSpeed.wind_gtb_iff a b).mpr hc]
  · simp only [decide_eq_false hc]
    rw [Bool.eq_false_iff]
    intro hb
    exact hc ((WindSpeed.wind_gtb_iff a b).mp hb)

theorem WindSpeed.wind_ltb_eq (a b : WindSpeed) :
    a.ltb b = decide (roundRat (a.meters_per_second * 1000)
      < roundRat (b.meters_per_second * 1000)) := by
  by_cases hc : roundRat (a.meters_per_second * 1000) < roundRat (b.meters_per_second * 1000)
  · simp [hc, (WindSpeed.wind_ltb_iff a b).mpr hc]
  · simp only [decide_eq_false hc]
    rw [Bool.eq_false_iff]
    intro hb
    exact hc ((WindSpeed.wind_ltb_iff a b).mp hb)

theorem Temperature.temp_gtb_eq (a b : Temperature) :
    a.gtb b = decide (roundRat (b.celsius * 1000) < roundRat (a.celsius * 1000)) := by
  by_cases hc : roundRat (b.celsius * 1000) < roundRat (a.celsius * 1000)
  · simp [hc, (Temperature.temp_gtb_iff a b).mpr hc]
  · simp only [decide_eq_false hc]
    rw [Bool.eq_false_iff]
    intro hb
    exact hc ((Temperature.temp_gtb_iff a b).mp hb)

theorem Temperature.temp_ltb_eq (a b : Temperature) :
    a.ltb b = decide (roundRat (a.celsius * 1000) < roundRat (b.celsius * 1000)) := by
  by_cases hc : roundRat (a.celsius * 1000) < roundRat (b.celsius * 1000)
  · simp [hc, (Temperature.temp_ltb_iff a b).mpr hc]
  · simp only [decide_eq_false hc]
    rw [Bool.eq_false_iff]
    intro hb
    exact hc ((Temperature.temp_ltb_iff a b).mp hb)

/-- C8: the classifier returns DAY when the whole hour window lies strictly
inside daylight (sunset ≥ t+1h and sunrise < t), NIGHT when the window lies
wholly before sunrise or after sunset (sunrise ≥ t+1h or sunset < t), and when
neither holds and sunset falls within the window it bands on minutes after the
window start: Night below 14, Twilight below 45, Day otherwise; the literal
scenario values (sunrise 06:00, sunset 20:00) give Night at 19:50, Twilight at
19:20 and Day at 19:00. -/
theorem get_time_of_day_day_night_and_sunset_banding :
    (∀ t sunrise sunset : ℤ, sunset ≥ t + 3600 → sunrise < t →
        get_time_of_day t sunrise sunset = .DAY)
    ∧ (∀ t sunrise sunset : ℤ, (sunrise ≥ t + 3600 ∨ sunset < t) →
        get_time_of_day t sunrise sunset = .NIGHT)
    ∧ (∀ t sunrise sunset : ℤ,
        ¬(sunset ≥ t + 3600 ∧ sunrise < t) → ¬(sunrise ≥ t + 3600 ∨ sunset < t) →
        sunset < t + 3600 →
        get_time_of_day t sunrise sunset =
          (if sunset < t + 14 * 60 then .NIGHT
           else if sunset < t + 45 * 60 then .TWILIGHT
           else .DAY))
    ∧ get_time_of_day (19 * 3600 + 50 * 60) (6 * 3600) (20 * 3600) = .NIGHT
    ∧ get_time_of_day (19 * 3600 + 20 * 60) (6 * 3600) (20 * 3600) = .TWILIGHT
    ∧ get_time_of_day (19 * 3600) (6 * 3600) (20 * 3600) = .DAY := by
  refine ⟨fun t r s hs hr => ?_, fun t r s h => ?_, fun t r s h1 h2 h3 => ?_,
    by decide, by decide, by decide⟩
  · unfold get_time_of_day
    dsimp only
    split_ifs <;> first | rfl | omega
  · unfold get_time_of_day
    dsimp only
    split_ifs <;> first | rfl | omega
  · unfold get_time_of_day
    dsimp only
    split_ifs <;> first | rfl | omega

/-- Witness for C8: concrete applications of all three conditional cases. -/
theorem get_time_of_day_day_night_and_sunset_banding_witness :
    get_time_of_day 7200 0 100000 = .DAY
    ∧ get_time_of_day 7200 50000 100000 = .NIGHT
    ∧ get_time_of_day (19 * 3600 + 20 * 60) (6 * 3600) (20 * 3600) = .TWILIGHT :=
  ⟨get_time_of_day_day_night_and_sunset_banding.1 7200 0 100000 (by decide) (by decide),
   get_time_of_day_day_night_and_sunset_banding.2.1 7200 50000 100000 (Or.inl (by decide)),
   by
     rw [get_time_of_day_day_night_and_sunset_banding.2.2.1 (19 * 3600 + 20 * 60)
       (6 * 3600) (20 * 3600) (by decide) (by decide) (by decide)]
     decide⟩

/-- C1 (code-bug evidence): the source's sunrise-boundary branch compares
`sunset` — not `sunrise` — against `t + 45min` (src/forecast_client.rs line 157),
so with hour start 05:40, sunrise 06:00 and sunset 20:00, where sunrise falls in
the window 20 minutes after its start (between the 14- and 45-minute thresholds,
so the specified banding requires Twilight), the classifier returns NIGHT; the
remaining conjuncts certify that this input indeed reaches the sunrise-boundary
sub-case with `t + 14min ≤ sunrise < t + 45min`. -/
theorem sunrise_boundary_returns_night_not_twilight :
    get_time_of_day (5 * 3600 + 40 * 60) (6 * 3600) (20 * 3600) = .NIGHT
    ∧ (5 * 3600 + 40 * 60 : ℤ) + 14 * 60 ≤ 6 * 3600
    ∧ (6 * 3600 : ℤ) < (5 * 3600 + 40 * 60) + 45 * 60
    ∧ ¬((20 * 3600 : ℤ) ≥ (5 * 3600 + 40 * 60) + 3600 ∧ (6 * 3600 : ℤ) < 5 * 3600 + 40 * 60)
    ∧ ¬((6 * 3600 : ℤ) ≥ (5 * 3600 + 40 * 60) + 3600 ∨ (20 * 3600 : ℤ) < 5 * 3600 + 40 * 60)
    ∧ ¬((20 * 3600 : ℤ) < (5 * 3600 + 40 * 60) + 3600) := by
  refine ⟨by decide, by decide, by decide, by decide, by decide, by decide⟩

/-- C2: an hour is flyable iff all four conditions hold — precipitation
probability at most 0.3, day-phase exactly Day, wind direction within the
inclusive degree bounds, and wind speed within the inclusive speed bounds under
the rounded canonical-unit (m/s × 1000, rounded) ordering; and with thresholds
wind [2,8] m/s and degrees [180,270], a Day hour with wind 9 m/s, direction
200° and pop 0.1 is rejected. -/
theorem is_flyable_iff_all_thresholds :
    (∀ (site : FlyingSite) (hour : HourWeatherForecast),
      site.is_flyable hour = true ↔
        (hour.pop ≤ 0.3 ∧ hour.time_of_day = TimeOfDay.DAY
          ∧ site.min_flyable_wind_degree ≤ hour.wind_deg
          ∧ hour.wind_deg ≤ site.max_flyable_wind_degree
          ∧ roundRat (site.min_flyable_wind.meters_per_second * 1000)
              ≤ roundRat (hour.wind_speed.meters_per_second * 1000)
          ∧ roundRat (hour.wind_speed.meters_per_second * 1000)
              ≤ roundRat (site.max_flyable_wind.meters_per_second * 1000)))
    ∧ exSite.is_flyable (exHour 0 9 200 10) = false := by
  constructor
  · intro site hour
    simp only [FlyingSite.is_flyable, WindSpeed.wind_gtb_eq, Bool.not_eq_true',
      Bool.or_eq_false_iff, decide_eq_false_iff_not, not_lt, not_not]
    constructor
    · rintro ⟨⟨⟨⟨⟨h1, h2⟩, h3⟩, h4⟩, h5⟩, h6⟩
      exact ⟨h1, h2, h3, h4, h5, h6⟩
    · rintro ⟨h1, h2, h3, h4, h5, h6⟩
      exact ⟨⟨⟨⟨⟨h1, h2⟩, h3⟩, h4⟩, h5⟩, h6⟩
  · norm_num [FlyingSite.is_flyable, exSite, exHour, WindSpeed.wind_gtb_eq,
      WindSpeed.meters_per_second, roundRat]

/-- C6: for every pair of Temperature values and every pair of WindSpeed values,
`eq` returns true iff their canonical-unit values (Celsius, resp. m/s), each
multiplied by 1000 and rounded to the nearest integer, are equal; and
`partial_cmp` returns Equal/Greater/Less consistently with comparing those same
rounded canonical integers (Greater exactly when the first rounded value is
strictly greater, Less exactly when strictly smaller). -/
theorem measures_compare_on_rounded_canonical_values :
    (∀ a b : Temperature,
      (a.eq b = true ↔ roundRat (a.celsius * 1000) = roundRat (b.celsius * 1000))
      ∧ (a.partial_cmp b = some Ordering.eq ↔
          roundRat (a.celsius * 1000) = roundRat (b.celsius * 1000))
      ∧ (a.partial_cmp b = some Ordering.gt ↔
          roundRat (b.celsius * 1000) < roundRat (a.celsius * 1000))
      ∧ (a.partial_cmp b = some Ordering.lt ↔
          roundRat (a.celsius * 1000) < roundRat (b.celsius * 1000)))
    ∧ (∀ a b : WindSpeed,
      (a.eq b = true ↔
          roundRat (a.meters_per_second * 1000) = roundRat (b.meters_per_second * 1000))
      ∧ (a.partial_cmp b = some Ordering.eq ↔
          roundRat (a.meters_per_second * 1000) = roundRat (b.meters_per_second * 1000))
      ∧ (a.partial_cmp b = some Ordering.gt ↔
          roundRat (b.meters_per_second * 1000) < roundRat (a.meters_per_second * 1000))
      ∧ (a.partial_cmp b = some Ordering.lt ↔
          roundRat (a.meters_per_second * 1000) < roundRat (b.meters_per_second * 1000))) :=
  ⟨fun a b => ⟨Temperature.temp_eq_iff a b, Temperature.temp_cmp_eq_iff a b,
      Temperature.temp_cmp_gt_iff a b, Temperature.temp_cmp_lt_iff a b⟩,
   fun a b => ⟨WindSpeed.wind_eq_iff a b, WindSpeed.wind_cmp_eq_iff a b,
      WindSpeed.wind_cmp_gt_iff a b, WindSpeed.wind_cmp_lt_iff a b⟩⟩

/-- C9: converting any wind speed to m/s yields a value comparing equal (under
the rounded canonical-unit equality) to the original, converting back to the
original unit recovers the original numeric value exactly (hence within the
1/1000 rounding tolerance), and `WindSpeed::MPH(10.0) == WindSpeed::KMPH(16.09344)`. -/
theorem wind_speed_unit_round_trip :
    (∀ w : WindSpeed, WindSpeed.eq (.MPS w.meters_per_second) w = true)
    ∧ (∀ x : ℚ, (WindSpeed.MPS (WindSpeed.MPH x).meters_per_second).miles_per_hour = x)
    ∧ (∀ x : ℚ, (WindSpeed.MPS (WindSpeed.KMPH x).meters_per_second).kilometers_per_second = x)
    ∧ (∀ x : ℚ, (WindSpeed.MPS (WindSpeed.MPS x).meters_per_second).meters_per_second = x)
    ∧ WindSpeed.eq (.MPH 10) (.KMPH 16.09344) = true := by
  refine ⟨fun w => ?_, fun x => ?_, fun x => ?_, fun x => rfl, ?_⟩
  · simp [WindSpeed.eq, WindSpeed.meters_per_second]
  · show x / MPS_TO_MPH * MPS_TO_MPH = x
    exact div_mul_cancel₀ x (by norm_num [MPS_TO_MPH])
  · show x / MPS_TO_KMPH * MPS_TO_KMPH = x
    exact div_mul_cancel₀ x (by norm_num [MPS_TO_KMPH])
  · norm_num [WindSpeed.eq, WindSpeed.meters_per_second, roundRat, MPS_TO_MPH, MPS_TO_KMPH]

/-- C3: the first hour opens a period with duration 1 and min = max equal to
that hour's measures; a subsequent hour extends the open period exactly when
its timestamp equals the period start plus the accumulated duration in hours,
incrementing the duration and updating the running min/max under the rounded
canonical-unit ordering; any other hour closes the open period and opens a new
one, and the final in-progress period is always appended; flyable hours at
08:00, 09:00, 10:00, 12:00, 13:00 yield exactly the two periods
{start 08:00, duration 3} and {start 12:00, duration 2}. -/
theorem aggregator_is_single_left_to_right_pass :
    (∀ h : HourWeatherForecast, SiteFlyablePeriod.from_hour h =
      { start := h.time, duration_hours := 1, wind_min := h.wind_speed,
        wind_max := h.wind_speed, wind_degree_min := h.wind_deg,
        wind_degree_max := h.wind_deg, temp_min := h.temperature,
        temp_max := h.temperature })
    ∧ (∀ (p : SiteFlyablePeriod) (h : HourWeatherForecast),
        p.is_next_hour h = true ↔ h.time = p.start + 3600 * p.duration_hours)
    ∧ (∀ (p : SiteFlyablePeriod) (h : HourWeatherForecast)
        (rest : List HourWeatherForecast), p.is_next_hour h = true →
        aggAux p (h :: rest) = aggAux (p.add_hour h) rest)
    ∧ (∀ (p : SiteFlyablePeriod) (h : HourWeatherForecast)
        (rest : List HourWeatherForecast), p.is_next_hour h = false →
        aggAux p (h :: rest) = p :: aggAux (SiteFlyablePeriod.from_hour h) rest)
    ∧ (∀ p : SiteFlyablePeriod, aggAux p [] = [p])
    ∧ (∀ (p : SiteFlyablePeriod) (h : HourWeatherForecast),
        (p.add_hour h).start = p.start
        ∧ (p.add_hour h).duration_hours = p.duration_hours + 1
        ∧ ((p.add_hour h).wind_min =
            if roundRat (h.wind_speed.meters_per_second * 1000)
                < roundRat (p.wind_min.meters_per_second * 1000)
            then h.wind_speed else p.wind_min)
        ∧ ((p.add_hour h).wind_max =
            if roundRat (p.wind_max.meters_per_second * 1000)
                < roundRat (h.wind_speed.meters_per_second * 1000)
            then h.wind_speed else p.wind_max)
        ∧ ((p.add_hour h).temp_min =
            if roundRat (h.temperature.celsius * 1000) < roundRat (p.temp_min.celsius * 1000)
            then h.temperature else p.temp_min)
        ∧ ((p.add_hour h).temp_max =
            if roundRat (p.temp_max.celsius * 1000) < roundRat (h.temperature.celsius * 1000)
            then h.temperature else p.temp_max)
        ∧ (p.add_hour h).wind_degree_min = min p.wind_degree_min h.wind_deg
        ∧ (p.add_hour h).wind_degree_max = max p.wind_degree_max h.wind_deg)
    ∧ aggAux (SiteFlyablePeriod.from_hour (exHour (8 * 3600) 3 200 10))
        [exHour (9 * 3600) 5 210 12, exHour (10 * 3600) 4 190 11,
         exHour (12 * 3600) 6 220 9, exHour (13 * 3600) 2 230 13]
      = [{ start := 8 * 3600, duration_hours := 3, wind_min := .MPS 3, wind_max := .MPS 5,
           wind_degree_min := 190, wind_degree_max := 210,
           temp_min := .C 10, temp_max := .C 12 },
         { start := 12 * 3600, duration_hours := 2, wind_min := .MPS 2, wind_max := .MPS 6,
           wind_degree_min := 220, wind_degree_max := 230,
           temp_min := .C 9, temp_max := .C 13 }] := by
  refine ⟨fun h => rfl, fun p h => ?_, fun p h rest hn => ?_, fun p h rest hn => ?_,
    fun p => rfl, fun p h => ⟨rfl, rfl, ?_, ?_, ?_, ?_, ?_, ?_⟩, ?_⟩
  · simp [SiteFlyablePeriod.is_next_hour, eq_comm]
  · simp [aggAux, hn]
  · simp [aggAux, hn]
  · simp [SiteFlyablePeriod.add_hour, WindSpeed.wind_gtb_eq]
  · simp [SiteFlyablePeriod.add_hour, WindSpeed.wind_ltb_eq]
  · simp [SiteFlyablePeriod.add_hour, Temperature.temp_gtb_eq]
  · simp [SiteFlyablePeriod.add_hour, Temperature.temp_ltb_eq]
  · simp only [SiteFlyablePeriod.add_hour, min_def]
    split_ifs <;> omega
  · simp only [SiteFlyablePeriod.add_hour, max_def]
    split_ifs <;> omega
  · norm_num [aggAux, SiteFlyablePeriod.from_hour, SiteFlyablePeriod.add_hour,
      SiteFlyablePeriod.is_next_hour, exHour, WindSpeed.wind_gtb_eq, WindSpeed.wind_ltb_eq,
      Temperature.temp_gtb_eq, Temperature.temp_ltb_eq, WindSpeed.meters_per_second,
      Temperature.celsius, roundRat]

/-- Witness for C3: a non-consecutive hour (09:00 ≠ the expected 01:00) closes
the open period and opens a new one. -/
theorem aggregator_is_single_left_to_right_pass_witness :
    aggAux (SiteFlyablePeriod.from_hour (exHour 0 3 200 10)) [exHour (9 * 3600) 5 210 12]
      = SiteFlyablePeriod.from_hour (exHour 0 3 200 10)
        :: aggAux (SiteFlyablePeriod.from_hour (exHour (9 * 3600) 5 210 12)) [] :=
  aggregator_is_single_left_to_right_pass.2.2.2.1
    (SiteFlyablePeriod.from_hour (exHour 0 3 200 10)) (exHour (9 * 3600) 5 210 12) []
    (by decide)

/-- Helper: the aggregation loop always emits at least the in-progress period. -/
theorem aggAux_ne_nil (p : SiteFlyablePeriod) (hs : List HourWeatherForecast) :
    aggAux p hs ≠ [] := by
  induction hs generalizing p with
  | nil => simp [aggAux]
  | cons h t ih =>
    by_cases hn : p.is_next_hour h = true
    · simpa [aggAux, hn] using ih (p.add_hour h)
    · simp [aggAux, hn]

/-- Helper: the first period emitted by the aggregation loop starts where the
in-progress period started. -/
theorem aggAux_head_start (p : SiteFlyablePeriod) (hs : List HourWeatherForecast) :
    ∃ q rest, aggAux p hs = q :: rest ∧ q.start = p.start := by
  induction hs generalizing p with
  | nil => exact ⟨p, [], rfl, rfl⟩
  | cons h t ih =>
    by_cases hn : p.is_next_hour h = true
    · obtain ⟨q, rest, heq, hstart⟩ := ih (p.add_hour h)
      exact ⟨q, rest, by simp [aggAux, hn, heq], hstart⟩
    · exact ⟨p, aggAux (SiteFlyablePeriod.from_hour h) t, by simp [aggAux, hn], rfl⟩

/-- Helper: every period emitted by the aggregation loop has positive duration,
provided the in-progress one does. -/
theorem aggAux_duration_pos (p : SiteFlyablePeriod) (hs : List HourWeatherForecast)
    (hp : 1 ≤ p.duration_hours) :
    ∀ q ∈ aggAux p hs, 1 ≤ q.duration_hours := by
  induction hs generalizing p with
  | nil => simpa [aggAux] using hp
  | cons h t ih =>
    by_cases hn : p.is_next_hour h = true
    · simp only [aggAux, hn, if_true]
      exact ih (p.add_hour h) (by simp only [SiteFlyablePeriod.add_hour]; omega)
    · intro q hq
      simp only [aggAux, hn, if_false, List.mem_cons, Bool.false_eq_true] at hq
      rcases hq with hq | hq
      · exact hq ▸ hp
      · exact ih (SiteFlyablePeriod.from_hour h) (by simp [SiteFlyablePeriod.from_hour]) q hq

/-- Helper: when the input hours ascend in steps of at least one hour and the
first of them lies no earlier than the end of the in-progress period, the
emitted periods are separated by strict gaps: each next period starts strictly
after the previous period's start plus its duration. -/
theorem aggAux_chain (p : SiteFlyablePeriod) (hs : List HourWeatherForecast)
    (hchain : List.Chain' (fun a b => a.time + 3600 ≤ b.time) hs)
    (hhead : ∀ h ∈ hs.head?, p.start + 3600 * p.duration_hours ≤ h.time) :
    List.Chain' (fun a b : SiteFlyablePeriod =>
      a.start + 3600 * a.duration_hours < b.start) (aggAux p hs) := by
  induction hs generalizing p with
  | nil => simp [aggAux]
  | cons h t ih =>
    have hh : p.start + 3600 * p.duration_hours ≤ h.time := hhead h (by simp)
    have hnext : ∀ h' ∈ t.head?, h.time + 3600 ≤ h'.time := (List.chain'_cons'.mp hchain).1
    by_cases hn : p.is_next_hour h = true
    · have htime : p.start + 3600 * p.duration_hours = h.time := by
        simpa [SiteFlyablePeriod.is_next_hour] using hn
      simp only [aggAux, hn, if_true]
      refine ih (p.add_hour h) (List.Chain'.tail hchain) ?_
      intro h' hh'
      have := hnext h' hh'
      simp only [SiteFlyablePeriod.add_hour]
      omega
    · have hne : ¬(p.start + 3600 * p.duration_hours = h.time) := by
        simpa [SiteFlyablePeriod.is_next_hour] using hn
      have hlt : p.start + 3600 * p.duration_hours < h.time := lt_of_le_of_ne hh hne
      simp only [aggAux, hn, if_false, Bool.false_eq_true]
      obtain ⟨q, rest, heq, hstart⟩ := aggAux_head_start (SiteFlyablePeriod.from_hour h) t
      have hchain' : List.Chain' (fun a b : SiteFlyablePeriod =>
          a.start + 3600 * a.duration_hours < b.start)
          (aggAux (SiteFlyablePeriod.from_hour h) t) := by
        refine ih (SiteFlyablePeriod.from_hour h) (List.Chain'.tail hchain) ?_
        intro h' hh'
        have := hnext h' hh'
        simp only [SiteFlyablePeriod.from_hour]
        omega
      rw [heq] at hchain' ⊢
      exact List.chain'_cons.mpr ⟨by rw [hstart]; simpa [SiteFlyablePeriod.from_hour] using hlt,
        hchain'⟩

/-- C5: report preparation returns None exactly when the forecast list has no
entry for tomorrow or when tomorrow's entry has no hour passing the flyability
predicate; it is modelled as a total Option-valued function (no error), and
whenever it returns Some the report's periods list is non-empty. -/
theorem prepare_report_none_iff_no_tomorrow_or_no_flyable_hour :
    ∀ (forecasts : List DayWeatherForecast) (tomorrow : ℤ) (site : FlyingSite),
      (prepare_report_for_site forecasts tomorrow site = none ↔
        ((∀ f ∈ forecasts, f.date ≠ tomorrow)
          ∨ ∃ f, forecasts.find? (fun g => g.date == tomorrow) = some f
              ∧ f.hourly.filter (fun h => site.is_flyable h) = []))
      ∧ (∀ r, prepare_report_for_site forecasts tomorrow site = some r →
          r.periods ≠ []) := by
  intro forecasts tomorrow site
  constructor
  · by_cases hemp : forecasts = []
    · subst hemp
      simp [prepare_report_for_site]
    · simp only [prepare_report_for_site, if_neg hemp]
      cases hfind : forecasts.find? (fun g => g.date == tomorrow) with
      | none =>
        have hnone : ∀ f ∈ forecasts, f.date ≠ tomorrow := by
          intro f hf
          simpa using List.find?_eq_none.mp hfind f hf
        exact iff_of_true rfl (Or.inl hnone)
      | some f =>
        cases hfil : f.hourly.filter (fun h => site.is_flyable h) with
        | nil =>
          simp only [hfil]
          refine iff_of_true ?_ (Or.inr ⟨f, rfl, hfil⟩)
          simp
        | cons h rest =>
          simp only [hfil]
          refine iff_of_false (by simp) ?_
          rintro (hall | ⟨f', hf', hfil'⟩)
          · have hmem := List.mem_of_find?_eq_some hfind
            have hdate : f.date = tomorrow := by
              simpa using List.find?_some hfind
            exact hall f hmem hdate
          · cases Option.some_inj.mp hf'
            rw [hfil] at hfil'
            exact List.noConfusion hfil'
  · intro r hr
    unfold prepare_report_for_site at hr
    split at hr
    · exact absurd hr (by simp)
    · split at hr
      · exact absurd hr (by simp)
      · split at hr
        · exact absurd hr (by simp)
        · rename_i h rest hfil
          simp only [Option.some.injEq] at hr
          rw [← hr]
          exact aggAux_ne_nil (SiteFlyablePeriod.from_hour h) rest

/-- Witness for C5: on the concrete forecast list the preparation succeeds and
the resulting report has a non-empty periods list. -/
theorem prepare_report_some_has_periods_witness :
    exReport.periods ≠ [] :=
  (prepare_report_none_iff_no_tomorrow_or_no_flyable_hour exForecasts 7 exSite).2 exReport
    (by norm_num [prepare_report_for_site, exForecasts, List.find?, exSite, exHour, exReport,
      FlyingSite.is_flyable, WindSpeed.wind_gtb_eq, WindSpeed.meters_per_second, roundRat,
      aggAux, List.filter])

/-- C7: whenever report preparation succeeds on forecasts whose hours ascend
chronologically in steps of at least one hour, the produced periods are in
strictly increasing start order with a strict time gap between consecutive
periods — the next period starts strictly after the previous period's start
plus its duration in hours — and every period lasts at least one hour (which
together also rule out any overlap). -/
theorem report_periods_ordered_disjoint_gapped :
    ∀ (forecasts : List DayWeatherForecast) (tomorrow : ℤ) (site : FlyingSite)
      (r : SiteFlyAbilityReport),
      prepare_report_for_site forecasts tomorrow site = some r →
      (∀ f ∈ forecasts, List.Chain' (fun a b => a.time + 3600 ≤ b.time) f.hourly) →
      List.Chain' (fun p q : SiteFlyablePeriod =>
        p.start + 3600 * p.duration_hours < q.start) r.periods
      ∧ ∀ p ∈ r.periods, 1 ≤ p.duration_hours := by
  intro forecasts tomorrow site r hr hasc
  unfold prepare_report_for_site at hr
  split at hr
  · exact absurd hr (by simp)
  · split at hr
    · exact absurd hr (by simp)
    · rename_i f hfind
      split at hr
      · exact absurd hr (by simp)
      · rename_i h rest hfil
        simp only [Option.some.injEq] at hr
        haveI : IsTrans HourWeatherForecast (fun a b => a.time + 3600 ≤ b.time) :=
          ⟨fun a b c hab hbc => by omega⟩
        have hchain0 := hasc f (List.mem_of_find?_eq_some hfind)
        have hpair := List.chain'_iff_pairwise.mp hchain0
        have hpairfil : List.Pairwise (fun a b => a.time + 3600 ≤ b.time)
            (f.hourly.filter (fun h => site.is_flyable h)) :=
          hpair.sublist (List.filter_sublist f.hourly)
        rw [hfil] at hpairfil
        have hchain1 : List.Chain' (fun a b : HourWeatherForecast =>
            a.time + 3600 ≤ b.time) (h :: rest) := hpairfil.chain'
        have hnext := (List.chain'_cons'.mp hchain1).1
        rw [← hr]
        constructor
        · refine aggAux_chain (SiteFlyablePeriod.from_hour h) rest
            (List.Chain'.tail hchain1) ?_
          intro h' hh'
          have := hnext h' hh'
          simp only [SiteFlyablePeriod.from_hour]
          omega
        · exact aggAux_duration_pos (SiteFlyablePeriod.from_hour h) rest
            (by simp [SiteFlyablePeriod.from_hour])

/-- Witness for C7: the invariant instantiated on the concrete forecast list. -/
theorem report_periods_ordered_disjoint_gapped_witness :
    List.Chain' (fun p q : SiteFlyablePeriod =>
      p.start + 3600 * p.duration_hours < q.start) exReport.periods
    ∧ ∀ p ∈ exReport.periods, 1 ≤ p.duration_hours :=
  report_periods_ordered_disjoint_gapped exForecasts 7 exSite exReport
    (by norm_num [prepare_report_for_site, exForecasts, List.find?, exSite, exHour, exReport,
      FlyingSite.is_flyable, WindSpeed.wind_gtb_eq, WindSpeed.meters_per_second, roundRat,
      aggAux, List.filter])
    (by intro f hf; simp only [exForecasts, List.mem_singleton] at hf; subst hf; simp)

/-- C4 (code-bug evidence): `Temperature::fahrenheit` applied to a Celsius value
`c` computes `(c - 32) / 1.8` — the incorrectly inverted Fahrenheit-to-Celsius
conversion — so at `C(0)` it yields `-160/9 ≈ -17.8` instead of the documented
`0 × 1.8 + 32 = 32`. -/
theorem fahrenheit_accessor_uses_swapped_formula :
    (∀ c : ℚ, Temperature.fahrenheit (.C c) = (c - 32) / 1.8)
    ∧ Temperature.fahrenheit (.C 0) = -160 / 9
    ∧ Temperature.fahrenheit (.C 0) ≠ 0 * 1.8 + 32 := by
  refine ⟨fun c => rfl, by norm_num [Temperature.fahrenheit], by norm_num [Temperature.fahrenheit]⟩

/-- C10: `Temperature::celsius` applied to a Fahrenheit value `f` computes
`f × 1.8 + 32` — the Celsius-to-Fahrenheit formula instead of the inverse
`(f - 32) / 1.8` — so both conversion accessors are swapped, and the equality
and ordering of Fahrenheit-tagged temperatures are computed on this value. -/
theorem celsius_accessor_uses_swapped_formula :
    (∀ f : ℚ, Temperature.celsius (.F f) = f * 1.8 + 32)
    ∧ Temperature.celsius (.F 32) = 896 / 10
    ∧ Temperature.celsius (.F 32) ≠ (32 - 32) / 1.8
    ∧ (∀ f g : ℚ, Temperature.eq (.F f) (.F g) = true ↔
        roundRat ((f * 1.8 + 32) * 1000) = roundRat ((g * 1.8 + 32) * 1000))
    ∧ (∀ f g : ℚ, Temperature.partial_cmp (.F f) (.F g) = some Ordering.gt ↔
        roundRat ((g * 1.8 + 32) * 1000) < roundRat ((f * 1.8 + 32) * 1000)) := by
  refine ⟨fun f => rfl, by norm_num [Temperature.celsius], by norm_num [Temperature.celsius],
    fun f g => ?_, fun f g => ?_⟩
  · simpa [Temperature.celsius] using Temperature.temp_eq_iff (.F f) (.F g)
  · simpa [Temperature.celsius] using Temperature.temp_cmp_gt_iff (.F f) (.F g)

end Weather
